import Mathlib

/-!
Verification of the retrying fetch helper and the mock endpoints of
`src/server.js` (an Express API serving mock classifieds data).

The stateful JavaScript is embedded shallowly:
* the outbound transport (what `axios.get` observes on each attempt) is a
  function from the 0-based attempt index to a `TransportEvent`;
* `makeRequest` becomes a pure function returning the final `Outcome`
  together with the trace of attempts made, delays inserted and errors
  logged;
* the `/search` and `/ad/:id` handlers become pure functions of an
  environment `Env` (clock, randomness, transport) and the request data.
-/

namespace KleinanzeigenApi

/-- What the network yields on one attempt: either an HTTP response with a
status code and a body, or a transport-level failure (timeout, connection
error, DNS failure) carrying a message. -/
inductive TransportEvent where
  | response (status : Nat) (body : String)
  | netFailure (msg : String)
deriving DecidableEq

/-- The rejection values of the `axios.get` promise: either a non-2xx HTTP
status rejection or a network-level error. -/
inductive AxiosError where
  | httpStatus (status : Nat) (body : String)
  | network (msg : String)
deriving DecidableEq

/-- Values thrown out of `makeRequest`.  The code in `src/server.js` only
ever rethrows the axios error itself (`throw error`, line 57).  The other
two constructors are Modelled from the spec: the spec taxonomy names a
wrapper type `ExhaustedRetriesError` and a type `ConfigurationError`,
neither of which occurs anywhere in the source; they are included so that
the spec claims mentioning them can be stated and compared with what the
code actually throws. -/
inductive FetchError where
  | axios (e : AxiosError)
  | exhaustedRetries (inner : AxiosError)
  | configuration (msg : String)
deriving DecidableEq

/-- Default axios `validateStatus`: a response resolves the promise exactly
when its status is in [200, 300). -/
def jsIs2xx (s : Nat) : Bool := decide (200 ≤ s) && decide (s < 300)

/-- `axios.get(url, {...})` as observed by the retry loop at attempt `i`:
resolves with the body on a 2xx response, rejects with `httpStatus` on any
other response (axios default `validateStatus`; the call at line 47 of
`src/server.js` sets no `validateStatus`), rejects with `network` on a
transport failure. -/
def axiosGet (transport : Nat → TransportEvent) (i : Nat) :
    Except AxiosError String :=
  match transport i with
  | .response s b => if jsIs2xx s then .ok b else .error (.httpStatus s b)
  | .netFailure m => .error (.network m)

/-- How a `makeRequest` call ends: resolving with the payload
(`return response.data`), rejecting with a thrown error, or resolving with
`undefined` (the loop body never runs and control falls off the end of the
function). -/
inductive Outcome where
  | payload (d : String)
  | thrown (e : FetchError)
  | undef
deriving DecidableEq

/-- True exactly when the outcome is a thrown `ExhaustedRetriesError`. -/
def Outcome.isExhaustedRetries : Outcome → Bool
  | .thrown (.exhaustedRetries _) => true
  | _ => false

/-- True exactly when the outcome is a thrown `ConfigurationError`. -/
def Outcome.isConfigurationError : Outcome → Bool
  | .thrown (.configuration _) => true
  | _ => false

/-- The result of running `makeRequest`: the outcome plus the observable
trace.  `attempts` is the list of 0-based loop indices at which a request
was issued (the `console.log` at line 45), `delays` the list of waits in
milliseconds inserted by `setTimeout` (line 60), and `errLog` the list of
per-attempt errors printed by `console.error` (line 55), in order. -/
structure RunResult where
  outcome : Outcome
  attempts : List Nat
  delays : List Nat
  errLog : List AxiosError
deriving DecidableEq

/-- The loop `for (let i = 0; i < retries; i++)` of `makeRequest`
(`src/server.js` lines 43-62), one iteration per call, indexed by the loop
counter `i` and by `remaining = retries - i`, the number of iterations the
guard still allows.  `remaining = 1` is exactly the source condition
`i === retries - 1`: on failure there the error is rethrown; on failure
earlier, the loop sleeps `1000 * (i + 1)` ms and continues with `i + 1`. -/
def go (transport : Nat → TransportEvent) : Nat → Nat → RunResult
  | _, 0 => ⟨.undef, [], [], []⟩
  | i, 1 =>
    match axiosGet transport i with
    | .ok d => ⟨.payload d, [i], [], []⟩
    | .error e => ⟨.thrown (.axios e), [i], [], [e]⟩
  | i, r + 2 =>
    match axiosGet transport i with
    | .ok d => ⟨.payload d, [i], [], []⟩
    | .error e =>
      let rest := go transport (i + 1) (r + 1)
      ⟨rest.outcome, i :: rest.attempts, 1000 * (i + 1) :: rest.delays,
        e :: rest.errLog⟩

/-- `makeRequest(url, retries)` (`src/server.js` lines 42-63).  The url is
abstracted into the transport; `retries` is an integer because the source
puts no constraint on it (the default at the call-free declaration site is
2).  A non-positive `retries` makes the loop guard `0 < retries` fail at
once, which `Int.toNat` renders as zero remaining iterations. -/
def makeRequest (transport : Nat → TransportEvent) (retries : Int) :
    RunResult :=
  go transport 0 retries.toNat

theorem go_last_ok (t : Nat → TransportEvent) (i : Nat) (d : String)
    (h : axiosGet t i = .ok d) : go t i 1 = ⟨.payload d, [i], [], []⟩ := by
  simp [go, h]

theorem go_last_err (t : Nat → TransportEvent) (i : Nat) (e : AxiosError)
    (h : axiosGet t i = .error e) :
    go t i 1 = ⟨.thrown (.axios e), [i], [], [e]⟩ := by
  simp [go, h]

theorem go_step_ok (t : Nat → TransportEvent) (i r : Nat) (d : String)
    (h : axiosGet t i = .ok d) : go t i (r + 2) = ⟨.payload d, [i], [], []⟩ := by
  simp [go, h]

theorem go_step_err (t : Nat → TransportEvent) (i r : Nat) (e : AxiosError)
    (h : axiosGet t i = .error e) :
    go t i (r + 2) = ⟨(go t (i + 1) (r + 1)).outcome,
      i :: (go t (i + 1) (r + 1)).attempts,
      1000 * (i + 1) :: (go t (i + 1) (r + 1)).delays,
      e :: (go t (i + 1) (r + 1)).errLog⟩ := by
  simp [go, h]

/-- A run in which every reachable attempt fails: the loop issues all
remaining attempts, sleeps after each non-final one, logs every error and
rethrows the error of the last attempt. -/
theorem go_all_fail (t : Nat → TransportEvent) (errF : Nat → AxiosError) :
    ∀ (r i : Nat),
      (∀ j, i ≤ j → j ≤ i + r → axiosGet t j = .error (errF j)) →
      go t i (r + 1) = ⟨.thrown (.axios (errF (i + r))), List.range' i (r + 1),
        (List.range' i r).map (fun j => 1000 * (j + 1)),
        (List.range' i (r + 1)).map errF⟩ := by
  intro r
  induction r with
  | zero =>
    intro i hfail
    rw [go_last_err t i _ (hfail i le_rfl (by omega))]
    simp
  | succ r2 ih =>
    intro i hfail
    have hi : axiosGet t i = .error (errF i) := hfail i le_rfl (by omega)
    have hrest := ih (i + 1) (fun j h1 h2 => hfail j (by omega) (by omega))
    rw [go_step_err t i r2 _ hi, hrest]
    have harg : i + 1 + r2 = i + (r2 + 1) := by omega
    simp [harg, List.range'_succ]

/-- A run in which the first `k` reachable attempts fail and attempt `k`
(0-based, counting from the loop entry) succeeds: the loop stops right
there with the payload of that attempt, after `k` backoff sleeps. -/
theorem go_succ_at (t : Nat → TransportEvent) :
    ∀ (k i rem : Nat) (d : String), k < rem →
      (∀ j, i ≤ j → j < i + k → ∃ e, axiosGet t j = .error e) →
      axiosGet t (i + k) = .ok d →
      (go t i rem).outcome = .payload d ∧
      (go t i rem).attempts = List.range' i (k + 1) ∧
      (go t i rem).delays = (List.range' i k).map (fun j => 1000 * (j + 1)) := by
  intro k
  induction k with
  | zero =>
    intro i rem d hlt _ hok
    rw [Nat.add_zero] at hok
    match rem, hlt with
    | 1, _ => rw [go_last_ok t i d hok]; simp
    | r + 2, _ => rw [go_step_ok t i r d hok]; simp
  | succ k2 ih =>
    intro i rem d hlt hfail hok
    obtain ⟨e, he⟩ := hfail i le_rfl (by omega)
    match rem, hlt with
    | r + 2, _ =>
      have hrest := ih (i + 1) (r + 1) d (by omega)
        (fun j h1 h2 => hfail j (by omega) (by omega))
        (by rw [show i + 1 + k2 = i + (k2 + 1) by omega]; exact hok)
      rw [go_step_err t i r e he]
      refine ⟨hrest.1, ?_, ?_⟩
      · show i :: (go t (i + 1) (r + 1)).attempts = _
        rw [hrest.2.1, List.range'_succ i (k2 + 1) 1]
      · show 1000 * (i + 1) :: (go t (i + 1) (r + 1)).delays = _
        rw [hrest.2.2, List.range'_succ i k2 1, List.map_cons]

/-- Whatever the transport does, the delays inserted by a run started at
loop counter `i` are the waits `1000 * (j + 1)` for a contiguous block of
counters `j` starting at `i`. -/
theorem go_delays_shape (t : Nat → TransportEvent) :
    ∀ (rem i : Nat), ∃ m,
      (go t i rem).delays = (List.range' i m).map (fun j => 1000 * (j + 1)) := by
  intro rem
  induction rem with
  | zero => intro i; exact ⟨0, by simp [go]⟩
  | succ r ih =>
    intro i
    match r with
    | 0 =>
      match h : axiosGet t i with
      | .ok d => exact ⟨0, by rw [go_last_ok t i d h]; simp⟩
      | .error e => exact ⟨0, by rw [go_last_err t i e h]; simp⟩
    | r2 + 1 =>
      match h : axiosGet t i with
      | .ok d => exact ⟨0, by rw [go_step_ok t i r2 d h]; simp⟩
      | .error e =>
        obtain ⟨m, hm⟩ := ih (i + 1)
        exact ⟨m + 1, by
          rw [go_step_err t i r2 e h]
          simp only [List.range'_succ, List.map_cons, hm]⟩

/-- If the first attempt of a run with at least two remaining iterations
fails, the next loop counter is among the attempts issued. -/
theorem go_attempts_next (t : Nat → TransportEvent) (i r : Nat) (e : AxiosError)
    (he : axiosGet t i = .error e) :
    i + 1 ∈ (go t i (r + 2)).attempts := by
  rw [go_step_err t i r e he]
  have : ∃ tl, (go t (i + 1) (r + 1)).attempts = (i + 1) :: tl := by
    match r with
    | 0 =>
      match h : axiosGet t (i + 1) with
      | .ok d => exact ⟨[], by rw [go_last_ok t (i + 1) d h]⟩
      | .error e2 => exact ⟨[], by rw [go_last_err t (i + 1) e2 h]⟩
    | r2 + 1 =>
      match h : axiosGet t (i + 1) with
      | .ok d => exact ⟨[], by rw [go_step_ok t (i + 1) r2 d h]⟩
      | .error e2 =>
        exact ⟨_, by rw [go_step_err t (i + 1) r2 e2 h]⟩
  obtain ⟨tl, htl⟩ := this
  simp [htl]

example : makeRequest (fun _ => .netFailure "timeout") 2 =
    ⟨.thrown (.axios (.network "timeout")), [0, 1], [1000],
      [.network "timeout", .network "timeout"]⟩ := by decide

example : makeRequest (fun _ => .response 200 "ok") 2 =
    ⟨.payload "ok", [0], [], []⟩ := by decide

example : makeRequest (fun _ => .response 200 "ok") 0 =
    ⟨.undef, [], [], []⟩ := by decide

example : makeRequest
    (fun j => if j = 0 then .response 404 "nf" else .response 200 "ok") 2 =
    ⟨.payload "ok", [0, 1], [1000], [.httpStatus 404 "nf"]⟩ := by decide

/-! JavaScript string and number primitives used by the `/search` handler,
modelled over ASCII (every string the handler manipulates is ASCII apart
from the euro sign, which neither lower-casing nor digit classification
touches). -/

/-- `String.prototype.toLowerCase`, ASCII model: `Char.toLower` lowers
exactly the letters A-Z. -/
def jsToLower (s : String) : String := String.mk (s.data.map Char.toLower)

/-- Does `hay` start with `sub`? (helper for the substring test). -/
def leadsWith : List Char → List Char → Bool
  | _, [] => true
  | [], _ :: _ => false
  | h :: ht, s :: st => h == s && leadsWith ht st

/-- Does `hay` contain `sub` as a contiguous run? (helper). -/
def containsSub : List Char → List Char → Bool
  | [], sub => sub.isEmpty
  | h :: ht, sub => leadsWith (h :: ht) sub || containsSub ht sub

/-- `String.prototype.includes`: substring containment. -/
def jsIncludes (s sub : String) : Bool := containsSub s.data sub.data

/-- Decimal value of the leading digit run of `cs`; `none` when there is no
leading digit (the `NaN` result). -/
def digitsVal (cs : List Char) : Option Nat :=
  match cs.takeWhile Char.isDigit with
  | [] => none
  | ds => some (ds.foldl (fun a c => 10 * a + (c.toNat - 48)) 0)

/-- `parseInt(s)` with no radix argument, decimal model: skip leading
whitespace, read an optional sign, then the longest leading digit run;
`none` models `NaN`.  (The hexadecimal `0x` prefix of the JS builtin is not
modelled: the handler only ever feeds `parseInt` the `priceMax` query value
and digit-stripped price strings, and both sides of every statement below
apply this same function, so the claims do not depend on that corner.) -/
def jsParseInt (s : String) : Option Int :=
  let cs := s.data.dropWhile fun c =>
    c == ' ' || c == '\t' || c == '\n' || c == '\r'
  match cs with
  | '-' :: rest => (digitsVal rest).map (fun n => -(n : Int))
  | '+' :: rest => (digitsVal rest).map (fun n => (n : Int))
  | rest => (digitsVal rest).map (fun n => (n : Int))

/-- JS `<=` on numbers that may be `NaN` (`none`): any comparison with
`NaN` is false. -/
def jsLe : Option Int → Option Int → Bool
  | some x, some y => decide (x ≤ y)
  | _, _ => false

/-- JS truthiness of an optional string: `undefined` and the empty string
are falsy, every other string truthy. -/
def truthy : Option String → Bool
  | none => false
  | some s => !(s == "")

/-- A mock listing as served by `/search` (`src/server.js` lines 100-146).
`postedDate` is the millisecond timestamp passed to `new Date(...)`; the
ISO rendering performed by `toISOString` is injective in the timestamp and
is abstracted away. -/
structure Listing where
  id : String
  title : String
  price : String
  location : String
  url : String
  postedDate : Int
  images : List String
deriving DecidableEq

/-- The ambient environment of a request: the clock (`Date.now()` in ms),
the value `Math.floor(Math.random() * 1000)` the `/ad/:id` handler would
draw, and the outbound transport that `makeRequest` would use.  The
handlers receive the whole environment; which parts they read is exactly
what the theorems below measure. -/
structure Env where
  now : Int
  randFloor : Nat
  transport : Nat → TransportEvent

/-- First mock listing (`mockResults[0]`, lines 101-109). -/
def mockItem1 (env : Env) : Listing :=
  ⟨"1", "iPhone 13 Pro 128GB Space Gray", "€ 650", "Berlin Mitte",
    "https://www.ebay-kleinanzeigen.de/s-anzeige/iphone-13-pro/123456",
    env.now, ["https://i.ebayimg.com/images/g/placeholder.jpg"]⟩

/-- Second mock listing (lines 110-118). -/
def mockItem2 (env : Env) : Listing :=
  ⟨"2", "Samsung Galaxy S23 Ultra 256GB", "€ 800", "Berlin Charlottenburg",
    "https://www.ebay-kleinanzeigen.de/s-anzeige/samsung-galaxy/123457",
    env.now - 86400000, ["https://i.ebayimg.com/images/g/placeholder2.jpg"]⟩

/-- Third mock listing (lines 119-127). -/
def mockItem3 (env : Env) : Listing :=
  ⟨"3", "MacBook Air M2 13\" 256GB", "€ 1.200", "Berlin Prenzlauer Berg",
    "https://www.ebay-kleinanzeigen.de/s-anzeige/macbook-air/123458",
    env.now - 172800000, ["https://i.ebayimg.com/images/g/placeholder3.jpg"]⟩

/-- Fourth mock listing (lines 128-136). -/
def mockItem4 (env : Env) : Listing :=
  ⟨"4", "Nintendo Switch OLED + Spiele", "€ 280", "Berlin Kreuzberg",
    "https://www.ebay-kleinanzeigen.de/s-anzeige/nintendo-switch/123459",
    env.now - 259200000, ["https://i.ebayimg.com/images/g/placeholder4.jpg"]⟩

/-- Fifth mock listing (lines 137-145). -/
def mockItem5 (env : Env) : Listing :=
  ⟨"5", "Gaming PC RTX 4070 + AMD Ryzen 7", "€ 1.500", "Berlin Wedding",
    "https://www.ebay-kleinanzeigen.de/s-anzeige/gaming-pc/123460",
    env.now - 345600000, ["https://i.ebayimg.com/images/g/placeholder5.jpg"]⟩

/-- The five fixed mock listings (`mockResults`, lines 100-146). -/
def mockResults (env : Env) : List Listing :=
  [mockItem1 env, mockItem2 env, mockItem3 env, mockItem4 env, mockItem5 env]

/-- The query parameters the `/search` handler destructures from
`req.query`; `none` models an absent parameter (`undefined`). -/
structure SearchQuery where
  q : Option String
  locationName : Option String
  distance : Option String
  priceMax : Option String
  sortBy : Option String
deriving DecidableEq

/-- `parseInt(item.price.replace(/[^\d]/g, ''))` (line 153): strip every
non-digit character from the price string, then parse. -/
def priceOf (item : Listing) : Option Int :=
  jsParseInt (String.mk (item.price.data.filter Char.isDigit))

/-- The mock results after the price filter (lines 149-156): applied only
when `priceMax` is truthy, keeping items whose stripped price is at most
`parseInt(priceMax)`. -/
def priceFiltered (env : Env) (query : SearchQuery) : List Listing :=
  match query.priceMax with
  | some s =>
    if s == "" then mockResults env
    else (mockResults env).filter fun item => jsLe (priceOf item) (jsParseInt s)
  | none => mockResults env

/-- The results after the title filter (lines 159-163): with
`q = req.query.q ?? 'technik'`, applied only when `q` is truthy and
different from the default `'technik'`, keeping items whose lower-cased
title contains the lower-cased `q`. -/
def titleFiltered (env : Env) (query : SearchQuery) : List Listing :=
  if !(query.q.getD "technik" == "") && !(query.q.getD "technik" == "technik")
  then
    (priceFiltered env query).filter fun item =>
      jsIncludes (jsToLower item.title) (jsToLower (query.q.getD "technik"))
  else priceFiltered env query

/-- The JSON body sent by the `/search` handler (lines 165-171). -/
structure SearchResponse where
  success : Bool
  count : Nat
  results : List Listing
  query : SearchQuery
  note : String
deriving DecidableEq

/-- The `/search` route handler (lines 66-181).  The `searchUrl` built from
the query (lines 79-95) is logged and never used, and the mock path cannot
throw, so the `catch` branch (lines 173-180) is unreachable; the observable
behaviour is the JSON body below. -/
def searchHandler (env : Env) (query : SearchQuery) : SearchResponse :=
  ⟨true, (titleFiltered env query).length, titleFiltered env query, query,
    "Mock-Daten - zeigt realistische Technik-Angebote"⟩

/-- The seller block of the `/ad/:id` mock details. -/
structure Seller where
  name : String
  sellerType : String
deriving DecidableEq

/-- The JSON body sent by the `/ad/:id` handler (lines 191-210). -/
structure AdResponse where
  success : Bool
  id : String
  title : String
  description : String
  price : String
  location : String
  postedDate : Int
  images : List String
  features : List String
  seller : Seller
  url : String
deriving DecidableEq

/-- The `/ad/:id` route handler (lines 184-220): static mock details, with
the price drawn from `Math.floor(Math.random() * 1000) + 100` and the date
from the clock.  As in `/search`, the `catch` branch is unreachable. -/
def adHandler (env : Env) (id : String) : AdResponse :=
  ⟨true, id, "Detailansicht für Anzeige #" ++ id,
    "Dies ist eine Beispiel-Beschreibung für die Anzeige. In der echten Version würden hier die tatsächlichen Details der eBay Kleinanzeigen stehen. Das Gerät ist in sehr gutem Zustand und wurde wenig genutzt.",
    "€ " ++ toString (env.randFloor + 100), "Berlin", env.now,
    ["https://i.ebayimg.com/images/g/placeholder.jpg"],
    ["Sehr guter Zustand", "Originalverpackung", "Garantie", "Versand möglich"],
    ⟨"TechnikVerkäufer123", "Privatperson"⟩,
    "https://www.ebay-kleinanzeigen.de/s-anzeige/detail/" ++ id⟩

example : jsParseInt "700" = some 700 := by decide
example : jsParseInt "" = none := by decide
example : jsParseInt "  -42abc" = some (-42) := by decide
example : priceOf ⟨"3", "x", "€ 1.200", "", "", 0, []⟩ = some 1200 := by decide
example : jsIncludes (jsToLower "iPhone 13 Pro 128GB Space Gray")
    (jsToLower "iPhone") = true := by decide
example : jsIncludes (jsToLower "Nintendo Switch OLED + Spiele")
    (jsToLower "iphone") = false := by decide

example :
    (searchHandler ⟨0, 0, fun _ => .netFailure "x"⟩
      ⟨none, none, none, some "700", none⟩).results.map Listing.id =
    ["1", "4"] := by decide

example :
    (searchHandler ⟨0, 0, fun _ => .netFailure "x"⟩
      ⟨some "iphone", none, none, none, none⟩).results.map Listing.id =
    ["1"] := by decide

example :
    (searchHandler ⟨0, 0, fun _ => .netFailure "x"⟩
      ⟨some "technik", none, none, none, none⟩).results.length = 5 := by decide

/-! Concrete transports and requests used to instantiate the theorems. -/

/-- A transport that times out on every attempt. -/
def tFail : Nat → TransportEvent := fun _ => .netFailure "timeout"

/-- A transport that answers 200 with body `ok` on every attempt. -/
def tOk : Nat → TransportEvent := fun _ => .response 200 "ok"

/-- A transport that answers 404 on the first attempt and 200 afterwards. -/
def t404 : Nat → TransportEvent := fun j =>
  if j = 0 then .response 404 "notfound" else .response 200 "ok"

/-- A transport that drops the connection on the first attempt and answers
200 afterwards. -/
def tFailThenOk : Nat → TransportEvent := fun j =>
  if j = 0 then .netFailure "ECONNRESET" else .response 200 "payload-b"

/-- A transport that fails with a distinct message on the first attempt
and on every later one. -/
def tTwoFails : Nat → TransportEvent := fun j =>
  if j = 0 then .netFailure "fail-0" else .netFailure "fail-1"

/-- The per-attempt errors `tTwoFails` produces. -/
def twoFailsErr : Nat → AxiosError := fun j =>
  if j = 0 then .network "fail-0" else .network "fail-1"

/-- A fixed environment (clock at epoch, zero random draw, failing
transport). -/
def env0 : Env := ⟨0, 0, tFail⟩

/-- A `/search` request with only `priceMax=700`. -/
def q700 : SearchQuery := ⟨none, none, none, some "700", none⟩

/-- A `/search` request with only `q=iphone`. -/
def qIphone : SearchQuery := ⟨some "iphone", none, none, none, none⟩

/-- A `/search` request with only `q=technik` (the default value, passed
explicitly). -/
def qTechnik : SearchQuery := ⟨some "technik", none, none, none, none⟩

/-! The claims. -/

/-- C1, counterexample to the claim as stated: against a transport that
times out on both attempts, `makeRequest` with 2 attempts does make exactly
2 attempts, but what it terminates with is the raw transport error of the
second attempt, not an `ExhaustedRetriesError` wrapping it — no such
wrapper exists anywhere in the code. -/
theorem makeRequest_all_fail_not_wrapped :
    (makeRequest tFail 2).attempts.length = 2 ∧
    (makeRequest tFail 2).outcome = .thrown (.axios (.network "timeout")) ∧
    Outcome.isExhaustedRetries (makeRequest tFail 2).outcome = false := by
  decide

/-- C1 (amended): for every `maxAttempts = n ≥ 1`, if the transport fails
on every attempt then `makeRequest` performs exactly `n` attempts and the
call terminates by throwing the error of the n-th (last) attempt itself. -/
theorem makeRequest_all_fail_throws_last (t : Nat → TransportEvent)
    (errF : Nat → AxiosError) (n : Nat) (hn : 1 ≤ n)
    (hfail : ∀ i, i < n → axiosGet t i = .error (errF i)) :
    (makeRequest t (n : Int)).attempts.length = n ∧
    (makeRequest t (n : Int)).outcome = .thrown (.axios (errF (n - 1))) := by
  obtain ⟨m, rfl⟩ : ∃ m, n = m + 1 := ⟨n - 1, by omega⟩
  have h := go_all_fail t errF m 0 (fun j h1 h2 => hfail j (by omega))
  have hmk : makeRequest t ((m + 1 : Nat) : Int) = go t 0 (m + 1) := rfl
  rw [hmk, h]
  simp

/-- C1, witness: two timeouts, two attempts, the second timeout thrown. -/
theorem makeRequest_all_fail_throws_last_witness :
    (makeRequest tFail 2).attempts.length = 2 ∧
    (makeRequest tFail 2).outcome = .thrown (.axios (.network "timeout")) :=
  makeRequest_all_fail_throws_last tFail (fun _ => .network "timeout") 2
    (by decide) (fun i _ => rfl)

/-- C2, counterexample to the claim as stated: `makeRequest` with
`retries = 0` does not fail with a `ConfigurationError` — it issues no
attempt and resolves successfully with `undefined`. -/
theorem makeRequest_zero_retries_no_error :
    makeRequest tFail 0 = ⟨.undef, [], [], []⟩ ∧
    Outcome.isConfigurationError (makeRequest tFail 0).outcome = false := by
  decide

/-- C2 (amended): for every call with `maxAttempts ≤ 0` the fetch issues
zero network requests and resolves successfully with `undefined`; no
`ConfigurationError` is raised (the code validates neither `maxAttempts`
nor the target). -/
theorem makeRequest_nonpos_no_config_error (t : Nat → TransportEvent)
    (r : Int) (hr : r ≤ 0) :
    (makeRequest t r).attempts = [] ∧
    (makeRequest t r).outcome = .undef ∧
    Outcome.isConfigurationError (makeRequest t r).outcome = false := by
  unfold makeRequest
  rw [Int.toNat_of_nonpos hr]
  exact ⟨rfl, rfl, rfl⟩

/-- C2, witness at `retries = 0`. -/
theorem makeRequest_nonpos_no_config_error_witness :
    (makeRequest t404 0).attempts = [] ∧
    (makeRequest t404 0).outcome = .undef ∧
    Outcome.isConfigurationError (makeRequest t404 0).outcome = false :=
  makeRequest_nonpos_no_config_error t404 0 (by decide)

/-- C8: for every transport, calling `makeRequest` with `retries ≤ 0` runs
the loop zero times and resolves with `undefined`: no attempt, no delay, no
logged or thrown error of any kind. -/
theorem makeRequest_nonpos_resolves_undefined (t : Nat → TransportEvent)
    (r : Int) (hr : r ≤ 0) :
    makeRequest t r = ⟨.undef, [], [], []⟩ := by
  unfold makeRequest
  rw [Int.toNat_of_nonpos hr]
  rfl

/-- C8, witness at `retries = -1`. -/
theorem makeRequest_nonpos_resolves_undefined_witness :
    makeRequest tOk (-1) = ⟨.undef, [], [], []⟩ :=
  makeRequest_nonpos_resolves_undefined tOk (-1) (by decide)

/-- If the attempts at the first `k + 1` reachable counters all fail and at
least `k + 2` iterations remain, the run goes on to issue attempt
`i + k + 1`. -/
theorem go_mem_attempts_of_prefix_fail (t : Nat → TransportEvent) :
    ∀ (k i rem : Nat), k + 1 < rem →
      (∀ j, i ≤ j → j ≤ i + k → ∃ e, axiosGet t j = .error e) →
      i + k + 1 ∈ (go t i rem).attempts := by
  intro k
  induction k with
  | zero =>
    intro i rem hlt hfail
    obtain ⟨e, he⟩ := hfail i le_rfl (by omega)
    match rem, hlt with
    | r + 2, _ => simpa using go_attempts_next t i r e he
  | succ k2 ih =>
    intro i rem hlt hfail
    obtain ⟨e, he⟩ := hfail i le_rfl (by omega)
    match rem, hlt with
    | r + 2, _ =>
      have h := ih (i + 1) (r + 1) (by omega)
        (fun j h1 h2 => hfail j (by omega) (by omega))
      rw [go_step_err t i r e he]
      have harg : i + 1 + k2 + 1 = i + (k2 + 1) + 1 := by omega
      rw [harg] at h
      exact List.mem_cons_of_mem i h

/-- C3, counterexample to the claim as stated: on the first attempt the
transport yields an HTTP response (status 404), yet `makeRequest` does not
return its payload — the axios rejection of the non-2xx status is caught
like a transport failure, a backoff sleep occurs and a second attempt is
made, whose payload is what the call returns. -/
theorem makeRequest_retries_on_http_404 :
    t404 0 = .response 404 "notfound" ∧
    makeRequest t404 2 =
      ⟨.payload "ok", [0, 1], [1000], [.httpStatus 404 "notfound"]⟩ := by
  decide

/-- C3 (amended): an attempt whose HTTP response has a 2xx status returns
its payload immediately, with no further attempts; an attempt whose
response has any other status is rejected by the HTTP client (axios
default `validateStatus`) and, when attempts remain, triggers a retry
exactly like a transport-level failure. -/
theorem makeRequest_status_semantics (t : Nat → TransportEvent)
    (n i s : Nat) (b : String) (hin : i < n)
    (hprev : ∀ j, j < i → ∃ e, axiosGet t j = .error e)
    (hresp : t i = .response s b) :
    ((200 ≤ s ∧ s < 300) →
      (makeRequest t (n : Int)).outcome = .payload b ∧
      (makeRequest t (n : Int)).attempts = List.range' 0 (i + 1)) ∧
    (¬(200 ≤ s ∧ s < 300) → i + 1 < n →
      i + 1 ∈ (makeRequest t (n : Int)).attempts) := by
  constructor
  · intro h2xx
    have hok : axiosGet t i = .ok b := by
      unfold axiosGet
      rw [hresp]
      simp [jsIs2xx, h2xx.1, h2xx.2]
    have h := go_succ_at t i 0 n b hin
      (fun j h1 h2 => hprev j (by omega)) (by rw [Nat.zero_add]; exact hok)
    exact ⟨h.1, h.2.1⟩
  · intro hnot hin2
    have hbad : jsIs2xx s = false := by
      unfold jsIs2xx
      simp only [Bool.and_eq_false_iff, decide_eq_false_iff_not]
      omega
    have herr : axiosGet t i = .error (.httpStatus s b) := by
      unfold axiosGet
      rw [hresp]
      simp [hbad]
    have h := go_mem_attempts_of_prefix_fail t i 0 n (by omega)
      (fun j h1 h2 => by
        rcases Nat.lt_or_ge j i with hj | hj
        · exact hprev j hj
        · have : j = i := by omega
          exact this ▸ ⟨.httpStatus s b, herr⟩)
    simpa using h

/-- C3, witness: a 200 on the first attempt returns at once; a 404 on the
first attempt is followed by a second attempt. -/
theorem makeRequest_status_semantics_witness :
    ((makeRequest tOk 2).outcome = .payload "ok" ∧
      (makeRequest tOk 2).attempts = List.range' 0 1) ∧
    1 ∈ (makeRequest t404 2).attempts := by
  constructor
  · exact (makeRequest_status_semantics tOk 2 0 200 "ok" (by decide)
      (fun j hj => absurd hj (Nat.not_lt_zero j)) rfl).1 (by decide)
  · exact (makeRequest_status_semantics t404 2 0 404 "notfound" (by decide)
      (fun j hj => absurd hj (Nat.not_lt_zero j)) rfl).2 (by decide) (by decide)

/-- C4: for every `maxAttempts = n` and `1 ≤ k < n`, if the transport
fails on attempts `1..k-1` and succeeds on attempt `k` (1-based), then the
attempts issued are exactly `1..k` — no attempt `k+1..n` occurs — and the
value returned is exactly the payload of attempt `k`. -/
theorem makeRequest_success_at_k (t : Nat → TransportEvent) (d : String)
    (n k : Nat) (hk : 1 ≤ k) (hkn : k < n)
    (hfail : ∀ j, j < k - 1 → ∃ e, axiosGet t j = .error e)
    (hok : axiosGet t (k - 1) = .ok d) :
    (makeRequest t (n : Int)).outcome = .payload d ∧
    (makeRequest t (n : Int)).attempts = List.range' 0 k := by
  have h := go_succ_at t (k - 1) 0 n d (by omega)
    (fun j h1 h2 => hfail j (by omega)) (by rw [Nat.zero_add]; exact hok)
  have hk1 : k - 1 + 1 = k := by omega
  rw [hk1] at h
  exact ⟨h.1, h.2.1⟩

/-- C4, witness: one connection reset, then success on attempt 2 of 3 —
exactly two attempts and the second attempt payload. -/
theorem makeRequest_success_at_k_witness :
    (makeRequest tFailThenOk 3).outcome = .payload "payload-b" ∧
    (makeRequest tFailThenOk 3).attempts = List.range' 0 2 :=
  makeRequest_success_at_k tFailThenOk "payload-b" 3 2 (by decide) (by decide)
    (fun j hj => by
      have hj0 : j = 0 := by omega
      subst hj0
      exact ⟨.network "ECONNRESET", rfl⟩)
    rfl

/-- C5: in every run, the delays inserted are `1000 * (j + 1)` ms for the
consecutive 0-based failure indices `j` — i.e. `baseDelay * i` with
`baseDelay` one second after the failure of 1-based attempt `i` — and the
sequence of delays is strictly increasing and everywhere positive. -/
theorem makeRequest_delays_linear (t : Nat → TransportEvent) (r : Int) :
    (makeRequest t r).delays =
      (List.range' 0 (makeRequest t r).delays.length).map
        (fun j => 1000 * (j + 1)) ∧
    (makeRequest t r).delays.Pairwise (· < ·) ∧
    (∀ d, d ∈ (makeRequest t r).delays → 0 < d) := by
  obtain ⟨m, hm⟩ := go_delays_shape t r.toNat 0
  have hmk : (makeRequest t r).delays =
      (List.range' 0 m).map (fun j => 1000 * (j + 1)) := hm
  refine ⟨?_, ?_, ?_⟩
  · rw [hmk]
    simp
  · rw [hmk, List.pairwise_map]
    exact (List.pairwise_lt_range' 0 m).imp (fun hab => by omega)
  · intro d hd
    rw [hmk] at hd
    simp only [List.mem_map] at hd
    obtain ⟨j, _, rfl⟩ := hd
    omega

/-- C5, witness: three timeouts with 3 attempts give the delays 1000 ms
then 2000 ms, strictly increasing and positive. -/
theorem makeRequest_delays_linear_witness :
    (makeRequest tFail 3).delays = [1000, 2000] ∧
    (makeRequest tFail 3).delays.Pairwise (· < ·) ∧
    0 < 1000 :=
  ⟨by decide, (makeRequest_delays_linear tFail 3).2.1,
    (makeRequest_delays_linear tFail 3).2.2 1000 (by decide)⟩

/-- C6: when every attempt fails, the error surfaced by the call is the
final attempt error and nothing else; the errors of all attempts —
earlier ones included — appear in the log only. -/
theorem makeRequest_final_error_surfaced (t : Nat → TransportEvent)
    (errF : Nat → AxiosError) (n : Nat) (hn : 1 ≤ n)
    (hfail : ∀ i, i < n → axiosGet t i = .error (errF i)) :
    (makeRequest t (n : Int)).outcome = .thrown (.axios (errF (n - 1))) ∧
    (makeRequest t (n : Int)).errLog = (List.range' 0 n).map errF ∧
    (∀ e, (makeRequest t (n : Int)).outcome = .thrown e →
      e = .axios (errF (n - 1))) := by
  obtain ⟨m, rfl⟩ : ∃ m, n = m + 1 := ⟨n - 1, by omega⟩
  have h := go_all_fail t errF m 0 (fun j h1 h2 => hfail j (by omega))
  have hmk : makeRequest t ((m + 1 : Nat) : Int) = go t 0 (m + 1) := rfl
  rw [hmk, h]
  refine ⟨by simp, by simp, ?_⟩
  intro e he
  simp only [RunResult.mk.injEq] at he ⊢
  simp at he
  simp [he]

/-- C6, witness: two distinct failures; the thrown error is the second
one, the log holds both in order. -/
theorem makeRequest_final_error_surfaced_witness :
    (makeRequest tTwoFails 2).outcome = .thrown (.axios (.network "fail-1")) ∧
    (makeRequest tTwoFails 2).errLog =
      [.network "fail-0", .network "fail-1"] := by
  have h := makeRequest_final_error_surfaced tTwoFails twoFailsErr 2
    (by decide)
    (fun i hi => by
      match i with
      | 0 => rfl
      | 1 => rfl
      | i + 2 => omega)
  exact ⟨h.1, h.2.1⟩

/-- C7: the mock endpoints never exercise `makeRequest`: with the clock and
the random draw held fixed, two environments that differ only in the
behaviour of the outbound transport produce identical responses on every
`/search` and every `/ad/:id` request. -/
theorem handlers_ignore_transport (e1 e2 : Env)
    (hnow : e1.now = e2.now) (hrand : e1.randFloor = e2.randFloor) :
    (∀ query, searchHandler e1 query = searchHandler e2 query) ∧
    (∀ id, adHandler e1 id = adHandler e2 id) := by
  have hmock : mockResults e1 = mockResults e2 := by
    simp only [mockResults, mockItem1, mockItem2, mockItem3, mockItem4,
      mockItem5, hnow]
  have hpf : ∀ query, priceFiltered e1 query = priceFiltered e2 query := by
    intro query
    unfold priceFiltered
    rw [hmock]
  have htf : ∀ query, titleFiltered e1 query = titleFiltered e2 query := by
    intro query
    unfold titleFiltered
    rw [hpf]
  refine ⟨fun query => ?_, fun id => ?_⟩
  · unfold searchHandler
    rw [htf]
  · unfold adHandler
    rw [hnow, hrand]

/-- C7, witness: a failing and a succeeding transport, same clock and
random draw, same responses. -/
theorem handlers_ignore_transport_witness :
    searchHandler ⟨0, 0, tFail⟩ q700 = searchHandler ⟨0, 0, tOk⟩ q700 ∧
    adHandler ⟨0, 0, tFail⟩ "42" = adHandler ⟨0, 0, tOk⟩ "42" :=
  ⟨(handlers_ignore_transport ⟨0, 0, tFail⟩ ⟨0, 0, tOk⟩ rfl rfl).1 q700,
   (handlers_ignore_transport ⟨0, 0, tFail⟩ ⟨0, 0, tOk⟩ rfl rfl).2 "42"⟩

/-- C9: every `/search` response has `count` equal to the length of its
`results`, `results` a sublist of the five mock listings, and — whenever a
truthy `priceMax` is supplied — every returned item has its digit-stripped
price at most `parseInt(priceMax)` under the JS comparison. -/
theorem search_count_sublist_price (env : Env) (query : SearchQuery) :
    (searchHandler env query).count = (searchHandler env query).results.length ∧
    List.Sublist (searchHandler env query).results (mockResults env) ∧
    (∀ s, query.priceMax = some s → s ≠ "" →
      ∀ item, item ∈ (searchHandler env query).results →
        jsLe (priceOf item) (jsParseInt s) = true) := by
  have hpf : List.Sublist (priceFiltered env query) (mockResults env) := by
    rcases hq : query.priceMax with _ | s
    · simp only [priceFiltered, hq]
      exact List.Sublist.refl _
    · simp only [priceFiltered, hq]
      split
      · exact List.Sublist.refl _
      · exact List.filter_sublist _
  have htf : List.Sublist (titleFiltered env query) (priceFiltered env query) := by
    unfold titleFiltered
    split
    · exact List.filter_sublist _
    · exact List.Sublist.refl _
  refine ⟨rfl, htf.trans hpf, ?_⟩
  intro s hq hs item hitem
  have hitem2 : item ∈ priceFiltered env query := by
    have h1 : item ∈ titleFiltered env query := hitem
    revert h1
    unfold titleFiltered
    split
    · exact fun h => (List.mem_filter.mp h).1
    · exact id
  have hb : (s == "") = false := beq_eq_false_iff_ne.mpr hs
  simp only [priceFiltered, hq, hb, Bool.false_eq_true, if_false] at hitem2
  exact (List.mem_filter.mp hitem2).2

/-- C9, witness: `priceMax=700` keeps exactly the items priced 650 and
280; the iPhone listing is returned and satisfies the price bound. -/
theorem search_count_sublist_price_witness :
    (searchHandler env0 q700).count = (searchHandler env0 q700).results.length ∧
    List.Sublist (searchHandler env0 q700).results (mockResults env0) ∧
    jsLe (priceOf (mockItem1 env0)) (jsParseInt "700") = true :=
  ⟨(search_count_sublist_price env0 q700).1,
   (search_count_sublist_price env0 q700).2.1,
   (search_count_sublist_price env0 q700).2.2 "700" rfl (by decide)
     (mockItem1 env0) (by decide)⟩

/-- C10: when `q` is absent or equal to the default `technik`, the title
filter is skipped and the results are exactly the price-filtered list; for
every other non-empty `q`, every returned item has the lower-cased `q` as
a substring of its lower-cased title. -/
theorem search_title_filter (env : Env) (query : SearchQuery) :
    ((query.q = none ∨ query.q = some "technik") →
      (searchHandler env query).results = priceFiltered env query) ∧
    (∀ s, query.q = some s → s ≠ "" → s ≠ "technik" →
      ∀ item, item ∈ (searchHandler env query).results →
        jsIncludes (jsToLower item.title) (jsToLower s) = true) := by
  constructor
  · intro hq
    show titleFiltered env query = priceFiltered env query
    rcases hq with hq | hq <;> simp [titleFiltered, hq]
  · intro s hq hs ht item hitem
    have hb1 : (s == "") = false := beq_eq_false_iff_ne.mpr hs
    have hb2 : (s == "technik") = false := beq_eq_false_iff_ne.mpr ht
    have h1 : item ∈ titleFiltered env query := hitem
    rw [titleFiltered] at h1
    simp only [hq, Option.getD_some, hb1, hb2, Bool.not_false, Bool.and_self,
      if_true] at h1
    exact (List.mem_filter.mp h1).2

/-- C10, witness: `q=technik` leaves all five mock listings unfiltered,
and `q=iphone` returns the iPhone listing, whose lower-cased title
contains `iphone`. -/
theorem search_title_filter_witness :
    (searchHandler env0 qTechnik).results = priceFiltered env0 qTechnik ∧
    jsIncludes (jsToLower (mockItem1 env0).title) (jsToLower "iphone") = true :=
  ⟨(search_title_filter env0 qTechnik).1 (Or.inr rfl),
   (search_title_filter env0 qIphone).2 "iphone" rfl (by decide) (by decide)
     (mockItem1 env0) (by decide)⟩

end KleinanzeigenApi
